import Mathlib

/-!
Kitchen-Safety: the control cycle, the remote-command handler and the reconnect routines.

Shallow embedding of the two firmware variants of the repository:

* `ESP32 C++ Code/Trial/src/FinalProject.cpp` (hardware variant), namespace `FinalProject`;
* `Wokwi Simulation/main (2).cpp` (simulation variant), namespace `WokwiMain`.

Arduino `String` values are modelled as the bytes of their buffer, which may hold NUL
bytes taken from a payload; a comparison with a C string is `strcmp`, which reads both
sides up to the first NUL.  Output pins are booleans, the servo is the last angle written
to it, sensor reads and connect attempts are inputs of the cycle.  Serial logging and `delay`
calls have no effect on the modelled state and are left out.
-/

namespace KitchenSafety

/-- Arduino `String`, as the sequence of the bytes in its buffer. -/
abbrev Str := List Char

/-- C `float` as returned by the DHT driver: NaN on a failed read, else a finite number. -/
inductive CFloat where
  | nan : CFloat
  | num (q : ℚ) : CFloat
  deriving DecidableEq

namespace CFloat

/-- C `isnan`. -/
def isnan : CFloat → Bool
  | nan => true
  | num _ => false

/-- C comparison `x > k` against an integer constant: false whenever `x` is NaN. -/
def gt (x : CFloat) (k : Int) : Bool :=
  match x with
  | nan => false
  | num q => decide ((k : ℚ) < q)

end CFloat

namespace Arduino

/-- The C string held in a buffer: the bytes before the first NUL. -/
def cstr (s : Str) : Str := s.takeWhile (fun c => c != '\x00')

/-- Arduino `String::equals(const char*)`, the `==` of a `String` and a C string:
`strcmp` of the two buffers is 0. -/
def equals (s lit : Str) : Bool := decide (cstr s = cstr lit)

/-- Characters that the text of a `float` is made of. -/
def floatChars : Str := "0123456789.-na".toList

/-- C `isspace` in the default locale, used by `String::trim` and `atol`. -/
def isSpace (c : Char) : Bool :=
  c = ' ' || c = '\t' || c = '\n' || c = '\x0b' || c = '\x0c' || c = '\r'

/-- Arduino `String::trim()`: removes leading and trailing whitespace. -/
def trim (s : Str) : Str :=
  ((s.dropWhile isSpace).reverse.dropWhile isSpace).reverse

/-- Digit loop of `strtol` in base 10: consumes digits until the first other character. -/
def parseDigits (acc : Nat) : Str → Nat
  | [] => acc
  | c :: cs => if c.isDigit then parseDigits (acc * 10 + (c.toNat - 48)) cs else acc

/-- Largest value of the 32-bit `long` of the target. -/
def LONG_MAX : Int := 2147483647

/-- Smallest value of the 32-bit `long` of the target. -/
def LONG_MIN : Int := -2147483648

/-- Out-of-range results of `strtol` are clamped to the `long` range. -/
def saturate (v : Int) : Int :=
  if v > LONG_MAX then LONG_MAX else if v < LONG_MIN then LONG_MIN else v

/-- Arduino `String::toInt()`, which is `atol` on the buffer: skips leading whitespace,
reads an optional sign and the digits that follow, and gives 0 when there is no digit. -/
def toInt (s : Str) : Int :=
  match s.dropWhile isSpace with
  | [] => 0
  | c :: cs =>
    if c = '-' then saturate (-(parseDigits 0 cs : Int))
    else if c = '+' then saturate (parseDigits 0 cs : Int)
    else saturate (parseDigits 0 (c :: cs) : Int)

/-- Character of one decimal digit. -/
def digitChar (d : Nat) : Char := Char.ofNat (48 + d)

/-- Decimal digits of `n`, most significant first; `fuel` bounds the number of digits. -/
def natDigits : Nat → Nat → Str
  | 0, _ => []
  | fuel + 1, n =>
    if n < 10 then [digitChar n] else natDigits fuel (n / 10) ++ [digitChar (n % 10)]

/-- Decimal text of a natural number. -/
def ofNat (n : Nat) : Str := natDigits (n + 1) n

/-- Arduino `String(int)`: decimal text, with a leading minus sign when negative. -/
def ofInt (v : Int) : Str :=
  if v < 0 then '-' :: ofNat v.natAbs else ofNat v.natAbs

/-- Arduino `String(float)`, two decimal places by default: the text `nan` for NaN, else
the magnitude rounded to the nearest hundredth (`r` hundredths) in fixed point.  The
rounding is exact here; the device adds 0.005 in binary floating point and truncates, so
a value within binary rounding error of a tie in the third decimal may come out one
hundredth lower there.  No statement below relies on the digits of such a value. -/
def ofFloat : CFloat → Str
  | CFloat.nan => "nan".toList
  | CFloat.num q =>
    let r : Nat := (200 * q.num.natAbs + q.den) / (2 * q.den)
    let body : Str := ofNat (r / 100) ++ '.' :: digitChar (r % 100 / 10) :: [digitChar (r % 10)]
    if q < 0 then '-' :: body else body

/-- A text that is empty or starts with a character that is no digit: what may follow a
number without being read as part of it. -/
def noLeadingDigit : Str → Bool
  | [] => true
  | c :: _ => !c.isDigit

/-- A text that starts with an integer as `atol` reads it: an optional sign, then a digit. -/
def startsWithInteger : Str → Bool
  | [] => false
  | c :: cs => if c = '-' ∨ c = '+' then !noLeadingDigit cs else c.isDigit

/-- A text that is an optionally signed decimal integer: an optional sign, then one or
more digits and nothing else. -/
def isSignedDecimal : Str → Bool
  | [] => false
  | c :: cs =>
    if c = '-' ∨ c = '+' then !cs.isEmpty && cs.all Char.isDigit else (c :: cs).all Char.isDigit

/-- Arduino `digitalRead` of an output pin: the level it drives, as an `int`. -/
def digitalRead (level : Bool) : Int := if level then 1 else 0

/-- Arduino macro `constrain(amt, low, high)`. -/
def constrain (amt low high : Int) : Int :=
  if amt < low then low else if amt > high then high else amt

end Arduino

/-- One call of `client.publish(topic, payload)`. -/
structure Publish where
  topic : Str
  payload : Str
  deriving DecidableEq

/-- The `PubSubClient`: whether `client.connected()` holds, and the topics subscribed in
the current session. -/
structure Client where
  connected : Bool
  subs : List Str
  deriving DecidableEq

/-- Calls on the `LiquidCrystal_I2C` display, in order. -/
inductive LcdOp where
  | clear : LcdOp
  | setCursor (col row : Nat) : LcdOp
  | print (text : Str) : LcdOp
  | printFloat (x : CFloat) (digits : Nat) : LcdOp
  | printInt (n : Int) : LcdOp
  deriving DecidableEq

/-- One reading of the four sensors: `gasValue`, `flameValue`, `temp`, `hum`. -/
structure Snapshot where
  gasValue : Int
  flameValue : Int
  temp : CFloat
  hum : CFloat
  deriving DecidableEq

namespace FinalProject

open Arduino

/-- Control topic of the alarm LED. -/
def sub_led : Str := "led".toList
/-- Confirmation topic of the alarm LED. -/
def pub_led : Str := "led/confirm".toList
/-- Control topic of the door servo. -/
def sub_servo : Str := "servo".toList
/-- Confirmation topic of the door servo. -/
def pub_servo : Str := "servo/confirm".toList
/-- Control topic of the buzzer. -/
def sub_buzz : Str := "buzzer".toList
/-- Confirmation topic of the buzzer. -/
def pub_buzz : Str := "buzzer/confirm".toList
/-- Telemetry topic. -/
def pub_sensors : Str := "sensors/data".toList

/-- Actuator side of the board: level of `PIN_LED` and `PIN_BUZZ`, the angle last written
to `myServo`, and the global `servoPos`. -/
structure Board where
  led : Bool
  buzz : Bool
  servo : Int
  servoPos : Int
  deriving DecidableEq

/-- Block `if (String(topic) == sub_led)` of `callback` (lines 91-99). -/
def callback_led (topic msg : Str) (r : Board × List Publish) : Board × List Publish :=
  if equals topic sub_led then
    if equals msg "ON".toList then
      ({ r.1 with led := true }, r.2 ++ [⟨pub_led, "LED ON".toList⟩])
    else
      ({ r.1 with led := false }, r.2 ++ [⟨pub_led, "LED OFF".toList⟩])
  else r

/-- Block `if (String(topic) == sub_servo)` of `callback` (lines 101-109). -/
def callback_servo (topic msg : Str) (r : Board × List Publish) : Board × List Publish :=
  if equals topic sub_servo then
    let angle := constrain (toInt msg) 0 180
    ({ r.1 with servo := angle, servoPos := angle },
      r.2 ++ [⟨pub_servo, "Servo moved to ".toList ++ ofInt angle⟩])
  else r

/-- Block `if (String(topic) == sub_buzz)` of `callback` (lines 111-119). -/
def callback_buzz (topic msg : Str) (r : Board × List Publish) : Board × List Publish :=
  if equals topic sub_buzz then
    if equals msg "ON".toList then
      ({ r.1 with buzz := true }, r.2 ++ [⟨pub_buzz, "Buzzer ON".toList⟩])
    else
      ({ r.1 with buzz := false }, r.2 ++ [⟨pub_buzz, "Buzzer OFF".toList⟩])
  else r

/-- The handler `callback(topic, payload, length)`: the payload bytes are collected into
`msg`, trimmed, and the three topic blocks run in sequence, each comparing `String(topic)`
and `msg` with a C string.  Returns the new actuator state and the `client.publish` calls
made, in order. -/
def callback (topic payload : Str) (b : Board) : Board × List Publish :=
  let msg := trim payload
  callback_buzz topic msg (callback_servo topic msg (callback_led topic msg (b, [])))

/-- The routine `reconnect()`: `while (!client.connected())` try to connect; a success
opens a session and subscribes to the three control topics, a failure waits and retries.
`attempt k` is the outcome of the attempt number `k`, `k` counts the attempts made so far,
`fuel` bounds the loop iterations; `none` when the loop is still running after `fuel`
iterations, else the client and the number of attempts made. -/
def reconnect (attempt : Nat → Bool) : Nat → Nat → Client → Option (Client × Nat)
  | 0, k, c => if c.connected then some (c, k) else none
  | fuel + 1, k, c =>
    if c.connected then some (c, k)
    else if attempt k then
      reconnect attempt fuel (k + 1) { connected := true, subs := [sub_led, sub_servo, sub_buzz] }
    else
      reconnect attempt fuel (k + 1) { c with connected := false }

/-- Local `flameDanger` of `loop` (line 189). -/
def flameDanger (s : Snapshot) : Bool := decide (s.flameValue < 1000)

/-- Local `gasDanger` of `loop` (line 190). -/
def gasDanger (s : Snapshot) : Bool := decide (s.gasValue > 2000)

/-- Local `tempDanger` of `loop` (line 191). -/
def tempDanger (s : Snapshot) : Bool := s.temp.gt 40

/-- Local `danger` of `loop` (line 193). -/
def danger (s : Snapshot) : Bool := gasDanger s || flameDanger s || tempDanger s

/-- Actuator writes of `loop` for a verdict (lines 196-199 and 212-215). -/
def loop_actuate (isDanger : Bool) (b : Board) : Board :=
  if isDanger then { b with led := true, buzz := true, servo := 180, servoPos := 180 }
  else { b with led := false, buzz := false, servo := 0, servoPos := 0 }

/-- Local `dangerMsg` of `loop` (lines 206-209). -/
def dangerMsg (s : Snapshot) : Str :=
  (if gasDanger s then "Gas ".toList else []) ++ (if flameDanger s then "Fire ".toList else [])
    ++ (if tempDanger s then "Heat ".toList else [])

/-- Display calls of `loop` (lines 202-210 and 218-226). -/
def loop_display (s : Snapshot) : List LcdOp :=
  if danger s then
    [LcdOp.clear, LcdOp.setCursor 0 0, LcdOp.print "DANGER! EVACUATE".toList,
      LcdOp.setCursor 0 1, LcdOp.print (dangerMsg s)]
  else
    [LcdOp.clear, LcdOp.setCursor 0 0, LcdOp.print "T:".toList, LcdOp.printFloat s.temp 1,
      LcdOp.print "C H:".toList, LcdOp.printFloat s.hum 0, LcdOp.print "%".toList,
      LcdOp.setCursor 0 1, LcdOp.print "G:".toList, LcdOp.printInt s.gasValue,
      LcdOp.print " F:".toList,
      LcdOp.print (if flameDanger s then "FIRE!".toList else "Safe".toList)]

/-- The values `loop` writes into `sensorData`, field by field (lines 231-242). -/
structure Telemetry where
  temp : CFloat
  hum : CFloat
  gas : Int
  flame : Int
  led : Int
  buzzer : Int
  servo : Int
  status : Str
  deriving DecidableEq

/-- The text of `sensorData`: each value converted by `String(...)` and appended after its
key, as lines 230-243 do. -/
def Telemetry.render (t : Telemetry) : Str :=
  "\x7b".toList
    ++ "\"temp\":".toList ++ ofFloat t.temp ++ ",".toList
    ++ "\"hum\":".toList ++ ofFloat t.hum ++ ",".toList
    ++ "\"gas\":".toList ++ ofInt t.gas ++ ",".toList
    ++ "\"flame\":".toList ++ ofInt t.flame ++ ",".toList
    ++ "\"led\":".toList ++ ofInt t.led ++ ",".toList
    ++ "\"buzzer\":".toList ++ ofInt t.buzzer ++ ",".toList
    ++ "\"servo\":".toList ++ ofInt t.servo ++ ",".toList
    ++ "\"status\":\"".toList ++ t.status ++ "\"".toList
    ++ "\x7d".toList

/-- The record `loop` builds from the snapshot and the board as it is after the actuator
writes: the pins are read back with `digitalRead`, the angle from `servoPos`. -/
def loop_record (s : Snapshot) (b : Board) : Telemetry :=
  { temp := s.temp, hum := s.hum, gas := s.gasValue, flame := s.flameValue,
    led := digitalRead b.led, buzzer := digitalRead b.buzz, servo := b.servoPos,
    status := if danger s then "DANGER - Door Open".toList else "All Safe".toList }

/-- The routine `sendToSupabase(jsonData)`: one POST of the record when WiFi is up. -/
def sendToSupabase (wifi : Bool) (jsonData : Str) : List Str :=
  if wifi then [jsonData] else []

/-- The call `client.loop()`: each incoming message `(topic, payload)` is handed to
`callback`; the confirmations are collected in order. -/
def client_loop (incoming : List (Str × Str)) (b : Board) : Board × List Publish :=
  incoming.foldl (fun r m => ((callback m.1 m.2 r.1).1, r.2 ++ (callback m.1 m.2 r.1).2)) (b, [])

/-- What one cycle receives from outside: the outcomes of the connect attempts, the
messages delivered by `client.loop()`, the sensor readings and the WiFi status. -/
structure CycleInput where
  attempt : Nat → Bool
  incoming : List (Str × Str)
  snap : Snapshot
  wifi : Bool

/-- State kept across cycles: the client and the actuators. -/
structure Device where
  client : Client
  board : Board
  deriving DecidableEq

/-- What one cycle emits: the `client.publish` calls, the display calls, the HTTP posts,
and the record that was built. -/
structure CycleOutput where
  published : List Publish
  lcd : List LcdOp
  posted : List Str
  record : Telemetry
  deriving DecidableEq

/-- Lines 177-249 of `loop`, from `client.loop()` to the two telemetry deliveries. -/
def loop_body (inp : CycleInput) (c : Client) (b : Board) : Device × CycleOutput :=
  let r := client_loop inp.incoming b
  let b2 := loop_actuate (danger inp.snap) r.1
  let t := loop_record inp.snap b2
  (⟨c, b2⟩,
    { published := r.2 ++ [⟨pub_sensors, t.render⟩],
      lcd := loop_display inp.snap,
      posted := sendToSupabase inp.wifi t.render,
      record := t })

/-- One pass of `loop()`: `reconnect()` when the client is not connected, then the rest
of the cycle.  `none` when `reconnect` is still running after `fuel` iterations. -/
def loop (fuel : Nat) (inp : CycleInput) (dev : Device) : Option (Device × CycleOutput) :=
  if dev.client.connected then some (loop_body inp dev.client dev.board)
  else
    match reconnect inp.attempt fuel 0 dev.client with
    | none => none
    | some r => some (loop_body inp r.1 dev.board)

/-- A board with everything off and the door closed. -/
def boardOff : Board := ⟨false, false, 0, 0⟩

/-- A connected device with everything off. -/
def deviceOnline : Device := ⟨⟨true, [sub_led, sub_servo, sub_buzz]⟩, boardOff⟩

/-- A cycle with safe readings in which `client.loop()` first delivers the remote
commands `led ON` and `servo 90`. -/
def cycleSafeAfterCommands : CycleInput :=
  ⟨fun _ => false, [(sub_led, "ON".toList), (sub_servo, "90".toList)],
    ⟨100, 1500, CFloat.num 25, CFloat.num 40⟩, true⟩

/-- A cycle with gas = 2500 and the other readings safe. -/
def cycleGas : CycleInput :=
  ⟨fun _ => false, [], ⟨2500, 1500, CFloat.num 25, CFloat.num 40⟩, true⟩

/-- A disconnected device whose actuators were left on by an earlier cycle. -/
def deviceOffline : Device := ⟨⟨false, []⟩, ⟨true, true, 180, 180⟩⟩

/-- A cycle with safe readings in which the second connect attempt is the first to
succeed. -/
def cycleReconnect : CycleInput :=
  ⟨fun j => decide (j = 1), [], ⟨100, 1500, CFloat.num 25, CFloat.num 40⟩, true⟩

/-- A cycle with gas = 2500 in which the second connect attempt is the first to succeed. -/
def cycleGasReconnect : CycleInput :=
  ⟨fun j => decide (j = 1), [], ⟨2500, 1500, CFloat.num 25, CFloat.num 40⟩, true⟩

/-- A cycle in which the temperature read fails while gas and flame are safe. -/
def cycleTempFault : CycleInput :=
  ⟨fun _ => false, [], ⟨100, 1500, CFloat.nan, CFloat.num 40⟩, true⟩

end FinalProject

namespace WokwiMain

open Arduino

/-- Actuator side of the simulated board: level of `PIN_LED` and `PIN_BUZZ` and the
angle last written to `myServo`. -/
structure Board where
  led : Bool
  buzz : Bool
  servo : Int
  deriving DecidableEq

/-- Arduino `HIGH`. -/
def HIGH : Int := 1

/-- The constant `interval`, in milliseconds. -/
def interval : Nat := 3000

/-- The routine `connectMQTT()`: `while (!client.connected())` call `client.connect` and
wait.  Same conventions as `FinalProject.reconnect`. -/
def connectMQTT (attempt : Nat → Bool) : Nat → Nat → Client → Option (Client × Nat)
  | 0, k, c => if c.connected then some (c, k) else none
  | fuel + 1, k, c =>
    if c.connected then some (c, k)
    else if attempt k then connectMQTT attempt fuel (k + 1) { connected := true, subs := [] }
    else connectMQTT attempt fuel (k + 1) { c with connected := false }

/-- The difference `currentMillis - previousMillis` of two `unsigned long` values. -/
def elapsed (currentMillis previousMillis : Nat) : Nat :=
  (currentMillis % 4294967296 + 4294967296 - previousMillis % 4294967296) % 4294967296

/-- Local `danger` of `loop` (line 143). -/
def danger (s : Snapshot) : Bool :=
  decide (s.gasValue > 2000) || decide (s.flameValue = HIGH) || s.temp.gt 40

/-- Actuator writes and alert of `loop` for the verdict (lines 145-155). -/
def loop_actuate (s : Snapshot) (b : Board) : Board × List Publish :=
  if danger s then
    ({ b with led := true, buzz := true, servo := 90 },
      [⟨"kitchen/alert".toList, "Danger Detected!".toList⟩])
  else
    ({ b with led := false, buzz := false, servo := 0 },
      [⟨"kitchen/alert".toList, "All Safe".toList⟩])

/-- Display calls of `loop` (lines 129-140). -/
def loop_display (s : Snapshot) : List LcdOp :=
  [LcdOp.clear, LcdOp.setCursor 0 0, LcdOp.print "T:".toList, LcdOp.printFloat s.temp 1,
    LcdOp.print " H:".toList, LcdOp.printFloat s.hum 1,
    LcdOp.setCursor 0 1, LcdOp.print "Gas:".toList, LcdOp.printInt s.gasValue,
    LcdOp.print " F:".toList, LcdOp.printInt s.flameValue]

/-- The routine `sendToSupabase(temp, hum, gas, flame)`: one POST when WiFi is up. -/
def sendToSupabase (wifi : Bool) (s : Snapshot) : List Str :=
  if wifi then
    ["\x7b\"temperature\": ".toList ++ ofFloat s.temp ++ ", \"humidity\": ".toList
      ++ ofFloat s.hum ++ ", \"gas\": ".toList ++ ofInt s.gasValue
      ++ ", \"flame\": ".toList ++ ofInt s.flameValue ++ "\x7d".toList]
  else []

/-- What one pass of `loop` receives from outside: the outcomes of the connect attempts,
the value of `millis()`, the sensor readings and the WiFi status. -/
structure CycleInput where
  attempt : Nat → Bool
  currentMillis : Nat
  snap : Snapshot
  wifi : Bool

/-- State kept across passes: the client, the actuators and `previousMillis`. -/
structure Device where
  client : Client
  board : Board
  previousMillis : Nat
  deriving DecidableEq

/-- What one pass emits: the `client.publish` calls, the display calls, the HTTP posts. -/
structure CycleOutput where
  published : List Publish
  lcd : List LcdOp
  posted : List Str
  deriving DecidableEq

/-- Lines 161-165 of `loop`: `connectMQTT()` when the client is not connected. -/
def loop_maintain (fuel : Nat) (attempt : Nat → Bool) (c : Client) : Option Client :=
  if c.connected then some c else (connectMQTT attempt fuel 0 c).map Prod.fst

/-- One pass of `loop()`.  When the interval has elapsed the sensors are read; a NaN
temperature or humidity returns from `loop` at once (line 119); otherwise the display,
the verdict, the actuators, the alert and the HTTP post follow, then the connection
upkeep.  `none` when `connectMQTT` is still running after `fuel` iterations. -/
def loop (fuel : Nat) (inp : CycleInput) (dev : Device) : Option (Device × CycleOutput) :=
  if elapsed inp.currentMillis dev.previousMillis ≥ interval then
    let dev1 : Device := { dev with previousMillis := inp.currentMillis % 4294967296 }
    if inp.snap.temp.isnan || inp.snap.hum.isnan then
      some (dev1, ⟨[], [], []⟩)
    else
      let r := loop_actuate inp.snap dev1.board
      (loop_maintain fuel inp.attempt dev1.client).map fun c =>
        ({ dev1 with client := c, board := r.1 },
          ⟨r.2, loop_display inp.snap, sendToSupabase inp.wifi inp.snap⟩)
  else
    (loop_maintain fuel inp.attempt dev.client).map fun c =>
      ({ dev with client := c }, ⟨[], [], []⟩)

end WokwiMain


/-! ## Decimal text and `toInt` -/

namespace Arduino

theorem digitChar_isDigit {d : Nat} (h : d < 10) : (digitChar d).isDigit = true := by
  interval_cases d <;> decide

theorem digitChar_toNat {d : Nat} (h : d < 10) : (digitChar d).toNat - 48 = d := by
  interval_cases d <;> decide

theorem digitChar_not_space {d : Nat} (h : d < 10) : isSpace (digitChar d) = false := by
  interval_cases d <;> decide

theorem digitChar_ne_minus {d : Nat} (h : d < 10) : digitChar d ≠ '-' := by
  interval_cases d <;> decide

theorem digitChar_ne_plus {d : Nat} (h : d < 10) : digitChar d ≠ '+' := by
  interval_cases d <;> decide

/-- Every character produced by `natDigits` is a decimal digit. -/
theorem natDigits_digit : ∀ (fuel n : Nat) (c : Char), c ∈ natDigits fuel n →
    ∃ d, d < 10 ∧ c = digitChar d := by
  intro fuel
  induction fuel with
  | zero => intro n c hc; simp [natDigits] at hc
  | succ f ih =>
    intro n c hc
    simp only [natDigits] at hc
    split_ifs at hc with h10
    · exact ⟨n, h10, by simpa using hc⟩
    · rcases List.mem_append.mp hc with h | h
      · exact ih _ _ h
      · exact ⟨n % 10, Nat.mod_lt _ (by norm_num), by simpa using h⟩

/-- With fuel left, `natDigits` produces at least one character. -/
theorem natDigits_ne_nil (fuel n : Nat) : natDigits (fuel + 1) n ≠ [] := by
  simp only [natDigits]
  split_ifs <;> simp

/-- Reading back the digits of `n` continues the accumulation with `n` appended. -/
theorem parseDigits_natDigits : ∀ (fuel n acc : Nat) (rest : Str), n < fuel →
    parseDigits acc (natDigits fuel n ++ rest)
      = parseDigits (acc * 10 ^ (natDigits fuel n).length + n) rest := by
  intro fuel
  induction fuel with
  | zero => intro n acc rest h; omega
  | succ f ih =>
    intro n acc rest h
    simp only [natDigits]
    split_ifs with h10
    · simp [parseDigits, digitChar_isDigit h10, digitChar_toNat h10]
    · have hlt : n / 10 < f := by omega
      have hm : n % 10 < 10 := Nat.mod_lt _ (by norm_num)
      rw [List.append_assoc, ih _ _ _ hlt]
      simp only [List.singleton_append, parseDigits, digitChar_isDigit hm, digitChar_toNat hm,
        if_true, List.length_append, List.length_singleton, pow_succ]
      congr 1
      have := Nat.div_add_mod n 10
      nlinarith [this]

theorem parseDigits_stop (acc : Nat) (rest : Str) (h : noLeadingDigit rest = true) :
    parseDigits acc rest = acc := by
  cases rest with
  | nil => rfl
  | cons c cs =>
    have hc : c.isDigit = false := by simpa [noLeadingDigit] using h
    simp [parseDigits, hc]

theorem parseDigits_ofNat (n : Nat) (rest : Str) (h : noLeadingDigit rest = true) :
    parseDigits 0 (ofNat n ++ rest) = n := by
  unfold ofNat
  rw [parseDigits_natDigits _ _ _ _ (Nat.lt_succ_self n), parseDigits_stop _ _ h]
  simp

theorem ofNat_head (n : Nat) : ∃ d cs, d < 10 ∧ ofNat n = digitChar d :: cs := by
  unfold ofNat
  cases hl : natDigits (n + 1) n with
  | nil => exact absurd hl (natDigits_ne_nil n n)
  | cons c cs =>
    obtain ⟨d, hd, rfl⟩ := natDigits_digit (n + 1) n c (by rw [hl]; exact List.mem_cons_self _ _)
    exact ⟨d, cs, hd, rfl⟩

/-- `toInt` reads back the decimal text of every 32-bit integer, whatever follows it
as long as that is not a further digit. -/
theorem toInt_ofInt_append (n : Int) (hlo : LONG_MIN ≤ n) (hhi : n ≤ LONG_MAX) (rest : Str)
    (hr : noLeadingDigit rest = true) : toInt (ofInt n ++ rest) = n := by
  have hsat : saturate n = n := by
    unfold saturate
    rw [if_neg (by omega), if_neg (by omega)]
  unfold ofInt
  by_cases hneg : n < 0
  · rw [if_pos hneg]
    have hsp : isSpace '-' = false := by decide
    simp only [toInt, List.cons_append, List.dropWhile, hsp, if_true, List.append_eq]
    rw [parseDigits_ofNat _ _ hr]
    have : -((n.natAbs : Nat) : Int) = n := by omega
    rw [this, hsat]
  · rw [if_neg hneg]
    obtain ⟨d, cs, hd, hcs⟩ := ofNat_head n.natAbs
    have hp := parseDigits_ofNat n.natAbs rest hr
    rw [hcs] at hp ⊢
    simp only [toInt, List.cons_append, List.dropWhile, digitChar_not_space hd,
      if_neg (digitChar_ne_minus hd), if_neg (digitChar_ne_plus hd), List.append_eq]
    rw [List.cons_append] at hp
    rw [hp]
    have : ((n.natAbs : Nat) : Int) = n := by omega
    rw [this, hsat]

/-- A text without whitespace is left as it is by `trim`. -/
theorem trim_eq_self (s : Str) (h : ∀ c ∈ s, isSpace c = false) : trim s = s := by
  have h1 : ∀ l : Str, (∀ c ∈ l, isSpace c = false) → l.dropWhile isSpace = l := by
    intro l hl
    cases l with
    | nil => rfl
    | cons c cs => simp [List.dropWhile, hl c (List.mem_cons_self _ _)]
  unfold trim
  rw [h1 s h, h1 s.reverse (fun c hc => h c (List.mem_reverse.mp hc)), List.reverse_reverse]

theorem ofInt_no_space (n : Int) : ∀ c ∈ ofInt n, isSpace c = false := by
  have hnat : ∀ k : Nat, ∀ c ∈ ofNat k, isSpace c = false := by
    intro k c hc
    obtain ⟨d, hd, rfl⟩ := natDigits_digit _ _ c hc
    exact digitChar_not_space hd
  intro c hc
  unfold ofInt at hc
  split_ifs at hc
  · rcases List.mem_cons.mp hc with rfl | h
    · decide
    · exact hnat _ c h
  · exact hnat _ c hc

/-- A trimmed text does not start with whitespace. -/
theorem dropWhile_trim (s : Str) : (trim s).dropWhile isSpace = trim s := by
  have hpre : trim s <+: s.dropWhile isSpace := by
    unfold trim
    exact List.rdropWhile_prefix isSpace _
  cases ht : trim s with
  | nil => rfl
  | cons c t =>
    rw [ht] at hpre
    obtain ⟨r, hr⟩ := hpre
    have hhead : (s.dropWhile isSpace).head? = some c := by rw [← hr]; rfl
    have hnot := List.head?_dropWhile_not isSpace s
    rw [hhead] at hnot
    have hc : isSpace c = false := by simpa using hnot
    simp [List.dropWhile, hc]

/-- Without a leading integer `toInt` gives 0. -/
theorem toInt_no_integer (s : Str) (hs : s.dropWhile isSpace = s)
    (h : startsWithInteger s = false) : toInt s = 0 := by
  unfold toInt
  rw [hs]
  cases s with
  | nil => rfl
  | cons c cs =>
    simp only [startsWithInteger] at h
    by_cases hm : c = '-'
    · rw [if_pos (Or.inl hm)] at h
      have hn : noLeadingDigit cs = true := by simpa using h
      simp only [if_pos hm, parseDigits_stop 0 cs hn]
      decide
    · by_cases hp : c = '+'
      · rw [if_pos (Or.inr hp)] at h
        have hn : noLeadingDigit cs = true := by simpa using h
        simp only [if_neg hm, if_pos hp, parseDigits_stop 0 cs hn]
        decide
      · rw [if_neg (by tauto)] at h
        have hn : noLeadingDigit (c :: cs) = true := by simp [noLeadingDigit, h]
        simp only [if_neg hm, if_neg hp, parseDigits_stop 0 (c :: cs) hn]
        decide

theorem digitChar_floatChars {d : Nat} (h : d < 10) : digitChar d ∈ floatChars := by
  interval_cases d <;> decide

/-- The text of a `float` is made of digits, the point, the minus sign and `nan`. -/
theorem ofFloat_chars (x : CFloat) : ∀ c ∈ ofFloat x, c ∈ floatChars := by
  cases x with
  | nan => decide
  | num q =>
    have hbody : ∀ c ∈ (ofNat ((200 * q.num.natAbs + q.den) / (2 * q.den) / 100)
        ++ '.' :: digitChar ((200 * q.num.natAbs + q.den) / (2 * q.den) % 100 / 10)
          :: [digitChar ((200 * q.num.natAbs + q.den) / (2 * q.den) % 10)]), c ∈ floatChars := by
      intro c hc
      rcases List.mem_append.mp hc with h | h
      · obtain ⟨d, hd, rfl⟩ := natDigits_digit _ _ c h
        exact digitChar_floatChars hd
      · rcases List.mem_cons.mp h with rfl | h
        · decide
        · rcases List.mem_cons.mp h with rfl | h
          · exact digitChar_floatChars (by omega)
          · rw [List.mem_singleton] at h
            subst h
            exact digitChar_floatChars (by omega)
    intro c hc
    simp only [ofFloat] at hc
    split_ifs at hc
    · rcases List.mem_cons.mp hc with rfl | h
      · decide
      · exact hbody c h
    · exact hbody c hc

/-- The macro `constrain(amt, 0, 180)` is the clamp `min (max amt 0) 180`. -/
theorem constrain_eq (n : Int) : constrain n 0 180 = min (max n 0) 180 := by
  unfold constrain
  split_ifs <;> omega

end Arduino


/-! ## The connection routines: loop lemmas -/

theorem reconnect_connected (attempt : Nat → Bool) (fuel k : Nat) (c : Client)
    (h : c.connected = true) : FinalProject.reconnect attempt fuel k c = some (c, k) := by
  cases fuel <;> simp [FinalProject.reconnect, h]

theorem connectMQTT_connected (attempt : Nat → Bool) (fuel k : Nat) (c : Client)
    (h : c.connected = true) : WokwiMain.connectMQTT attempt fuel k c = some (c, k) := by
  cases fuel <;> simp [WokwiMain.connectMQTT, h]

/-- While every attempt fails, `reconnect` is still in its loop after any number of
iterations. -/
theorem reconnect_all_fail (attempt : Nat → Bool) (hall : ∀ j, attempt j = false) :
    ∀ (fuel k : Nat) (c : Client), c.connected = false →
      FinalProject.reconnect attempt fuel k c = none := by
  intro fuel
  induction fuel with
  | zero => intro k c hc; simp [FinalProject.reconnect, hc]
  | succ f ih =>
    intro k c hc
    simp only [FinalProject.reconnect, hc, hall k, Bool.false_eq_true, if_false]
    exact ih _ _ rfl

/-- While every attempt fails, `connectMQTT` is still in its loop after any number of
iterations. -/
theorem connectMQTT_all_fail (attempt : Nat → Bool) (hall : ∀ j, attempt j = false) :
    ∀ (fuel k : Nat) (c : Client), c.connected = false →
      WokwiMain.connectMQTT attempt fuel k c = none := by
  intro fuel
  induction fuel with
  | zero => intro k c hc; simp [WokwiMain.connectMQTT, hc]
  | succ f ih =>
    intro k c hc
    simp only [WokwiMain.connectMQTT, hc, hall k, Bool.false_eq_true, if_false]
    exact ih _ _ rfl

/-- When the first success is `d` attempts after attempt `k0`, `reconnect` returns
connected and subscribed once it is given more than `d` iterations, and not before. -/
theorem reconnect_first_success (attempt : Nat → Bool) :
    ∀ (d k0 fuel : Nat) (c : Client), c.connected = false → attempt (k0 + d) = true →
      (∀ j, j < d → attempt (k0 + j) = false) →
      FinalProject.reconnect attempt fuel k0 c
        = if d < fuel then
            some (⟨true, [FinalProject.sub_led, FinalProject.sub_servo, FinalProject.sub_buzz]⟩,
              k0 + d + 1)
          else none := by
  intro d
  induction d with
  | zero =>
    intro k0 fuel c hc hk _
    cases fuel with
    | zero => simp [FinalProject.reconnect, hc]
    | succ f =>
      have hk0 : attempt k0 = true := by simpa using hk
      simp only [FinalProject.reconnect, hc, hk0, Bool.false_eq_true, if_false, if_true]
      rw [reconnect_connected _ _ _ _ rfl]
      simp
  | succ d ih =>
    intro k0 fuel c hc hk hfail
    cases fuel with
    | zero => simp [FinalProject.reconnect, hc]
    | succ f =>
      have h0 : attempt k0 = false := by simpa using hfail 0 (Nat.succ_pos d)
      simp only [FinalProject.reconnect, hc, h0, Bool.false_eq_true, if_false]
      rw [ih (k0 + 1) f _ rfl (by rw [← hk]; congr 1; omega)
        (fun j hj => by rw [← hfail (j + 1) (by omega)]; congr 1; omega)]
      by_cases hdf : d < f
      · rw [if_pos hdf, if_pos (by omega)]
        congr 2
        omega
      · rw [if_neg hdf, if_neg (by omega)]

/-- When the first success is `d` attempts after attempt `k0`, `connectMQTT` returns
connected once it is given more than `d` iterations, and not before. -/
theorem connectMQTT_first_success (attempt : Nat → Bool) :
    ∀ (d k0 fuel : Nat) (c : Client), c.connected = false → attempt (k0 + d) = true →
      (∀ j, j < d → attempt (k0 + j) = false) →
      WokwiMain.connectMQTT attempt fuel k0 c
        = if d < fuel then some (⟨true, []⟩, k0 + d + 1) else none := by
  intro d
  induction d with
  | zero =>
    intro k0 fuel c hc hk _
    cases fuel with
    | zero => simp [WokwiMain.connectMQTT, hc]
    | succ f =>
      have hk0 : attempt k0 = true := by simpa using hk
      simp only [WokwiMain.connectMQTT, hc, hk0, Bool.false_eq_true, if_false, if_true]
      rw [connectMQTT_connected _ _ _ _ rfl]
      simp
  | succ d ih =>
    intro k0 fuel c hc hk hfail
    cases fuel with
    | zero => simp [WokwiMain.connectMQTT, hc]
    | succ f =>
      have h0 : attempt k0 = false := by simpa using hfail 0 (Nat.succ_pos d)
      simp only [WokwiMain.connectMQTT, hc, h0, Bool.false_eq_true, if_false]
      rw [ih (k0 + 1) f _ rfl (by rw [← hk]; congr 1; omega)
        (fun j hj => by rw [← hfail (j + 1) (by omega)]; congr 1; omega)]
      by_cases hdf : d < f
      · rw [if_pos hdf, if_pos (by omega)]
        congr 2
        omega
      · rw [if_neg hdf, if_neg (by omega)]

/-! ## The hardware variant: verdict, actuators, remote commands -/

namespace FinalProject

open Arduino

theorem callback_on_servo (payload : Str) (b : Board) :
    callback sub_servo payload b
      = ({ b with servo := constrain (toInt (trim payload)) 0 180,
                  servoPos := constrain (toInt (trim payload)) 0 180 },
          [⟨pub_servo, "Servo moved to ".toList ++ ofInt (constrain (toInt (trim payload)) 0 180)⟩]) := by
  have h0 : equals sub_servo sub_servo = true := by decide
  have h1 : equals sub_servo sub_led = false := by decide
  have h2 : equals sub_servo sub_buzz = false := by decide
  simp [callback, callback_led, callback_servo, callback_buzz, h0, h1, h2]

/-- C1: the danger decision of `loop` is true exactly when gas > 2000, or flame < 1000, or
the temperature is a valid number above 40; humidity has no influence, an invalid
temperature never triggers it, and with flame >= 1000 and temperature not above 40
gas = 2000 is safe while gas = 2001 is danger. -/
theorem danger_iff (s : Snapshot) :
    (danger s = true ↔
      s.gasValue > 2000 ∨ s.flameValue < 1000 ∨ ∃ q, s.temp = CFloat.num q ∧ (40 : ℚ) < q) ∧
    (∀ h : CFloat, danger { s with hum := h } = danger s) ∧
    (danger { s with temp := CFloat.nan } = true ↔ s.gasValue > 2000 ∨ s.flameValue < 1000) ∧
    (s.flameValue ≥ 1000 → (∀ q, s.temp = CFloat.num q → q ≤ 40) →
      danger { s with gasValue := 2000 } = false ∧ danger { s with gasValue := 2001 } = true) := by
  obtain ⟨g, f, t, h⟩ := s
  refine ⟨?_, fun _ => rfl, ?_, ?_⟩
  · cases t with
    | nan => simp [danger, gasDanger, flameDanger, tempDanger, CFloat.gt]
    | num q => simp [danger, gasDanger, flameDanger, tempDanger, CFloat.gt, or_assoc]
  · simp [danger, gasDanger, flameDanger, tempDanger, CFloat.gt]
  · intro hf ht
    cases t with
    | nan =>
      simp only [ge_iff_le] at hf
      simp [danger, gasDanger, flameDanger, tempDanger, CFloat.gt, hf]
    | num q =>
      have hq := ht q rfl
      simp only [ge_iff_le] at hf
      simp [danger, gasDanger, flameDanger, tempDanger, CFloat.gt, hf, hq]

/-- Witness of C1 at gas boundary values with flame = 1000 and temperature = 40. -/
theorem danger_iff_witness :
    danger { (⟨0, 1000, CFloat.num 40, CFloat.num 55⟩ : Snapshot) with gasValue := 2000 } = false ∧
    danger { (⟨0, 1000, CFloat.num 40, CFloat.num 55⟩ : Snapshot) with gasValue := 2001 } = true :=
  (danger_iff ⟨0, 1000, CFloat.num 40, CFloat.num 55⟩).2.2.2 (by decide)
    (fun q hq => by cases hq; exact le_refl _)

/-- C2: whatever the actuator state before, also after any sequence of remote commands, the
actuator writes of `loop` leave LED = buzzer = verdict and servo angle = `servoPos` = 180
on danger, 0 otherwise; the result does not depend on the prior state and applying the
same verdict again changes nothing. -/
theorem loop_actuate_overrides (b : Board) (cmds : List (Str × Str)) (isDanger : Bool) :
    loop_actuate isDanger (client_loop cmds b).1
      = ⟨isDanger, isDanger, if isDanger then 180 else 0, if isDanger then 180 else 0⟩ ∧
    (∀ b2 : Board, loop_actuate isDanger b2 = loop_actuate isDanger b) ∧
    loop_actuate isDanger (loop_actuate isDanger b) = loop_actuate isDanger b ∧
    (∀ (inp : CycleInput) (c : Client),
      (loop_body inp c b).1.board
        = ⟨danger inp.snap, danger inp.snap, if danger inp.snap then 180 else 0,
            if danger inp.snap then 180 else 0⟩) := by
  have key : ∀ b2 : Board, loop_actuate isDanger b2
      = ⟨isDanger, isDanger, if isDanger then 180 else 0, if isDanger then 180 else 0⟩ := by
    intro b2
    cases isDanger <;> simp [loop_actuate]
  refine ⟨key _, fun b2 => by rw [key, key], by rw [key, key], ?_⟩
  intro inp c
  simp only [loop_body]
  cases danger inp.snap <;> simp [loop_actuate]

/-- C4: an integer of the 32-bit range sent as decimal text on topic `servo` sets the
servo angle and `servoPos` to `min (max n 0) 180`, which lies in [0, 180], and the one
confirmation is `Servo moved to ` followed by that clamped angle. -/
theorem callback_servo_clamps (n : Int) (hlo : LONG_MIN ≤ n) (hhi : n ≤ LONG_MAX) (b : Board) :
    callback sub_servo (ofInt n) b
      = ({ b with servo := min (max n 0) 180, servoPos := min (max n 0) 180 },
          [⟨pub_servo, "Servo moved to ".toList ++ ofInt (min (max n 0) 180)⟩]) ∧
    0 ≤ (callback sub_servo (ofInt n) b).1.servoPos ∧
    (callback sub_servo (ofInt n) b).1.servoPos ≤ 180 := by
  have ht : toInt (trim (ofInt n)) = n := by
    rw [trim_eq_self _ (ofInt_no_space n)]
    have := toInt_ofInt_append n hlo hhi [] rfl
    rwa [List.append_nil] at this
  rw [callback_on_servo, ht, constrain_eq]
  refine ⟨rfl, ?_, ?_⟩
  · exact le_min (le_max_right _ _) (by norm_num)
  · exact min_le_right _ _

/-- Witness of C4: 200 is clamped to 180 and -5 to 0. -/
theorem callback_servo_clamps_witness :
    (LONG_MIN ≤ 200 ∧ 200 ≤ LONG_MAX ∧
      callback sub_servo (ofInt 200) ⟨false, false, 0, 0⟩
        = (⟨false, false, 180, 180⟩, [⟨pub_servo, "Servo moved to 180".toList⟩])) ∧
    (LONG_MIN ≤ -5 ∧ -5 ≤ LONG_MAX ∧
      callback sub_servo (ofInt (-5)) ⟨false, false, 90, 90⟩
        = (⟨false, false, 0, 0⟩, [⟨pub_servo, "Servo moved to 0".toList⟩])) := by
  refine ⟨⟨by decide, by decide, ?_⟩, ⟨by decide, by decide, ?_⟩⟩
  · rw [(callback_servo_clamps 200 (by decide) (by decide) ⟨false, false, 0, 0⟩).1]
    decide
  · rw [(callback_servo_clamps (-5) (by decide) (by decide) ⟨false, false, 90, 90⟩).1]
    decide

/-- A buffer without a NUL byte is its own C string. -/
theorem cstr_eq_self (s : Str) (h : ∀ c ∈ s, c ≠ '\x00') : cstr s = s := by
  unfold cstr
  rw [List.takeWhile_eq_self_iff]
  intro c hc
  simpa using h c hc

/-- Trimming only removes bytes. -/
theorem mem_of_mem_trim (s : Str) (c : Char) (h : c ∈ trim s) : c ∈ s := by
  unfold trim at h
  rw [List.mem_reverse] at h
  have h2 := (List.dropWhile_sublist isSpace).subset h
  rw [List.mem_reverse] at h2
  exact (List.dropWhile_sublist isSpace).subset h2

/-- Comparison with a C string that holds no NUL. -/
theorem equals_eq (s lit : Str) (hl : cstr lit = lit) : equals s lit = decide (cstr s = lit) := by
  unfold equals
  rw [hl]

/-- C5 as stated fails: the payload `ON` followed by a NUL byte is not `ON` after
trimming, yet on topic `led` the LED is switched on and `LED ON` is confirmed. -/
theorem callback_led_on_with_nul :
    trim ['O', 'N', '\x00'] ≠ "ON".toList ∧
    callback sub_led ['O', 'N', '\x00'] ⟨false, false, 0, 0⟩
      = (⟨true, false, 0, 0⟩, [⟨pub_led, "LED ON".toList⟩]) := by
  decide

/-- C5 amended: with the topic read as a C string, on topic `led` (or `buzzer`) the LED
(the buzzer) is switched on exactly when the trimmed payload read as a C string, that is
up to its first NUL byte, is `ON`, no other actuator field changes, and exactly one
confirmation goes to `led/confirm` (`buzzer/confirm`); on topic `servo` exactly one
confirmation goes to `servo/confirm`, naming the angle; on any other topic nothing is
published and the state is unchanged.  For a payload without a NUL byte the trimmed
payload read as a C string is the trimmed payload itself. -/
theorem callback_confirms (topic payload : Str) (b : Board) :
    (cstr topic = sub_led →
      callback topic payload b
        = ({ b with led := decide (cstr (trim payload) = "ON".toList) },
            [⟨pub_led, if cstr (trim payload) = "ON".toList then "LED ON".toList
                       else "LED OFF".toList⟩])) ∧
    (cstr topic = sub_buzz →
      callback topic payload b
        = ({ b with buzz := decide (cstr (trim payload) = "ON".toList) },
            [⟨pub_buzz, if cstr (trim payload) = "ON".toList then "Buzzer ON".toList
                        else "Buzzer OFF".toList⟩])) ∧
    (cstr topic = sub_servo →
      (callback topic payload b).2
        = [⟨pub_servo,
            "Servo moved to ".toList ++ ofInt (constrain (toInt (trim payload)) 0 180)⟩]) ∧
    (cstr topic ≠ sub_led → cstr topic ≠ sub_servo → cstr topic ≠ sub_buzz →
      callback topic payload b = (b, [])) ∧
    ((∀ c ∈ payload, c ≠ '\x00') → cstr (trim payload) = trim payload) := by
  have eled := equals_eq topic sub_led (by decide)
  have eservo := equals_eq topic sub_servo (by decide)
  have ebuzz := equals_eq topic sub_buzz (by decide)
  have eon := equals_eq (trim payload) ['O', 'N'] (by decide)
  refine ⟨?_, ?_, ?_, ?_, ?_⟩
  · intro h
    have h1 : sub_led ≠ sub_servo := by decide
    have h2 : sub_led ≠ sub_buzz := by decide
    rw [h] at eled eservo ebuzz
    by_cases hon : cstr (trim payload) = ['O', 'N'] <;>
      simp [callback, callback_led, callback_servo, callback_buzz, eled, eservo, ebuzz, eon,
        h1, h2, hon]
  · intro h
    have h1 : sub_buzz ≠ sub_led := by decide
    have h2 : sub_buzz ≠ sub_servo := by decide
    rw [h] at eled eservo ebuzz
    by_cases hon : cstr (trim payload) = ['O', 'N'] <;>
      simp [callback, callback_led, callback_servo, callback_buzz, eled, eservo, ebuzz, eon,
        h1, h2, hon]
  · intro h
    have h1 : sub_servo ≠ sub_led := by decide
    have h2 : sub_servo ≠ sub_buzz := by decide
    rw [h] at eled eservo ebuzz
    simp [callback, callback_led, callback_servo, callback_buzz, eled, eservo, ebuzz, h1, h2]
  · intro h1 h2 h3
    simp [callback, callback_led, callback_servo, callback_buzz, eled, eservo, ebuzz, h1, h2, h3]
  · intro h
    exact cstr_eq_self _ (fun c hc => h c (mem_of_mem_trim payload c hc))

/-- Witness of C5 amended: ` ON` with a newline on `led`, `on` on `buzzer`, `45` on
`servo`, a message on the telemetry topic, and a payload without a NUL byte. -/
theorem callback_confirms_witness :
    callback sub_led " ON\n".toList ⟨false, false, 7, 7⟩
      = (⟨true, false, 7, 7⟩, [⟨pub_led, "LED ON".toList⟩]) ∧
    callback sub_buzz "on".toList ⟨true, true, 7, 7⟩
      = (⟨true, false, 7, 7⟩, [⟨pub_buzz, "Buzzer OFF".toList⟩]) ∧
    (callback sub_servo "45".toList ⟨true, true, 7, 7⟩).2
      = [⟨pub_servo, "Servo moved to 45".toList⟩] ∧
    callback pub_sensors "ON".toList ⟨false, true, 7, 7⟩ = (⟨false, true, 7, 7⟩, []) ∧
    cstr (trim " ON\n".toList) = trim " ON\n".toList := by
  refine ⟨?_, ?_, ?_, ?_, ?_⟩
  · rw [(callback_confirms sub_led " ON\n".toList ⟨false, false, 7, 7⟩).1 (by decide)]
    decide
  · rw [(callback_confirms sub_buzz "on".toList ⟨true, true, 7, 7⟩).2.1 (by decide)]
    decide
  · rw [(callback_confirms sub_servo "45".toList ⟨true, true, 7, 7⟩).2.2.1 (by decide)]
    decide
  · exact (callback_confirms pub_sensors "ON".toList ⟨false, true, 7, 7⟩).2.2.2.1
      (by decide) (by decide) (by decide)
  · exact (callback_confirms sub_led " ON\n".toList ⟨false, false, 7, 7⟩).2.2.2.2 (by decide)

/-- C6 as stated fails: `90abc` is not a decimal integer, yet the servo goes to 90 and the
confirmation reads `Servo moved to 90`. -/
theorem callback_servo_digits_then_text :
    isSignedDecimal (trim "90abc".toList) = false ∧
    callback sub_servo "90abc".toList ⟨false, false, 0, 0⟩
      = (⟨false, false, 90, 90⟩, [⟨pub_servo, "Servo moved to 90".toList⟩]) := by
  decide

/-- C6 amended: a payload on `servo` whose trimmed text does not start with an integer
(no digit after the optional sign) sets servo angle and `servoPos` to 0 and is confirmed
by `Servo moved to 0`; a trimmed text made of the decimal text of a 32-bit integer `n`
followed by anything that is not a digit is handled as `n`, clamped to [0, 180]. -/
theorem callback_servo_malformed (payload : Str) (b : Board) :
    (startsWithInteger (trim payload) = false →
      callback sub_servo payload b
        = ({ b with servo := 0, servoPos := 0 },
            [⟨pub_servo, "Servo moved to 0".toList⟩])) ∧
    (∀ (n : Int) (rest : Str), LONG_MIN ≤ n → n ≤ LONG_MAX → noLeadingDigit rest = true →
      trim payload = ofInt n ++ rest →
      callback sub_servo payload b
        = ({ b with servo := min (max n 0) 180, servoPos := min (max n 0) 180 },
            [⟨pub_servo, "Servo moved to ".toList ++ ofInt (min (max n 0) 180)⟩])) := by
  constructor
  · intro h
    rw [callback_on_servo, toInt_no_integer _ (dropWhile_trim payload) h]
    have hc : constrain 0 0 180 = 0 := by decide
    have ho : ofInt 0 = "0".toList := by decide
    rw [hc, ho]
    rfl
  · intro n rest hlo hhi hr ht
    rw [callback_on_servo, ht, toInt_ofInt_append n hlo hhi rest hr, constrain_eq]

/-- Witness of C6 amended: `abc`, the empty payload and `90abc`. -/
theorem callback_servo_malformed_witness :
    callback sub_servo "abc".toList ⟨true, true, 180, 180⟩
      = (⟨true, true, 0, 0⟩, [⟨pub_servo, "Servo moved to 0".toList⟩]) ∧
    callback sub_servo [] ⟨true, true, 180, 180⟩
      = (⟨true, true, 0, 0⟩, [⟨pub_servo, "Servo moved to 0".toList⟩]) ∧
    callback sub_servo "90abc".toList ⟨true, true, 180, 180⟩
      = (⟨true, true, 90, 90⟩, [⟨pub_servo, "Servo moved to 90".toList⟩]) := by
  refine ⟨?_, ?_, ?_⟩
  · exact (callback_servo_malformed "abc".toList ⟨true, true, 180, 180⟩).1 (by decide)
  · exact (callback_servo_malformed [] ⟨true, true, 180, 180⟩).1 (by decide)
  · rw [(callback_servo_malformed "90abc".toList ⟨true, true, 180, 180⟩).2 90 "abc".toList
      (by decide) (by decide) (by decide) (by decide)]
    decide

/-! ## The hardware variant: telemetry -/

theorem loop_some (fuel : Nat) (inp : CycleInput) (dev : Device) (r : Device × CycleOutput)
    (h : loop fuel inp dev = some r) : ∃ c, r = loop_body inp c dev.board := by
  unfold loop at h
  split_ifs at h with hc
  · exact ⟨dev.client, (Option.some.inj h).symm⟩
  · cases hr : reconnect inp.attempt fuel 0 dev.client with
    | none => simp [hr] at h
    | some x =>
      simp only [hr, Option.some.injEq] at h
      exact ⟨x.1, h.symm⟩

theorem loop_connected (fuel : Nat) (inp : CycleInput) (dev : Device)
    (h : dev.client.connected = true) :
    loop fuel inp dev = some (loop_body inp dev.client dev.board) := by
  unfold loop
  rw [if_pos h]

theorem loop_body_record (inp : CycleInput) (c : Client) (b : Board) :
    (loop_body inp c b).2.record
      = { temp := inp.snap.temp, hum := inp.snap.hum, gas := inp.snap.gasValue,
          flame := inp.snap.flameValue,
          led := if danger inp.snap then 1 else 0,
          buzzer := if danger inp.snap then 1 else 0,
          servo := if danger inp.snap then 180 else 0,
          status := if danger inp.snap then "DANGER - Door Open".toList
                    else "All Safe".toList } := by
  simp only [loop_body, loop_record]
  cases danger inp.snap <;> simp [loop_actuate, digitalRead]

/-- A cycle entered disconnected returns once the first successful connect attempt has
been made, and then runs the rest of the cycle with the new session. -/
theorem loop_reconnected (fuel : Nat) (inp : CycleInput) (dev : Device)
    (hc : dev.client.connected = false) (k : Nat) (hk : inp.attempt k = true)
    (hfail : ∀ j, j < k → inp.attempt j = false) (hfuel : k < fuel) :
    loop fuel inp dev
      = some (loop_body inp ⟨true, [sub_led, sub_servo, sub_buzz]⟩ dev.board) := by
  have h := reconnect_first_success inp.attempt k 0 fuel dev.client hc (by simpa using hk)
    (fun j hj => by simpa using hfail j hj)
  unfold loop
  rw [if_neg (by simp [hc]), h, if_pos hfuel]

/-- The text that the cycle publishes on `sensors/data` and posts: the four readings,
then the led, buzzer, servo and status of the verdict of this cycle. -/
theorem loop_body_text (inp : CycleInput) (c : Client) (b : Board) :
    ∃ t h : Str, (∀ x ∈ t, x ∈ floatChars) ∧ (∀ x ∈ h, x ∈ floatChars) ∧
      (loop_body inp c b).2.published.getLast?
        = some ⟨pub_sensors,
            "\x7b\"temp\":".toList ++ t ++ ",\"hum\":".toList ++ h
              ++ ",\"gas\":".toList ++ ofInt inp.snap.gasValue
              ++ ",\"flame\":".toList ++ ofInt inp.snap.flameValue
              ++ (if danger inp.snap then
                    ",\"led\":1,\"buzzer\":1,\"servo\":180,\"status\":\"DANGER - Door Open\"\x7d".toList
                  else
                    ",\"led\":0,\"buzzer\":0,\"servo\":0,\"status\":\"All Safe\"\x7d".toList)⟩ ∧
      (loop_body inp c b).2.posted
        = if inp.wifi then
            ["\x7b\"temp\":".toList ++ t ++ ",\"hum\":".toList ++ h
              ++ ",\"gas\":".toList ++ ofInt inp.snap.gasValue
              ++ ",\"flame\":".toList ++ ofInt inp.snap.flameValue
              ++ (if danger inp.snap then
                    ",\"led\":1,\"buzzer\":1,\"servo\":180,\"status\":\"DANGER - Door Open\"\x7d".toList
                  else
                    ",\"led\":0,\"buzzer\":0,\"servo\":0,\"status\":\"All Safe\"\x7d".toList)]
          else [] := by
  have o0 : ofInt 0 = ['0'] := by decide
  have o1 : ofInt 1 = ['1'] := by decide
  have o180 : ofInt 180 = ['1', '8', '0'] := by decide
  refine ⟨ofFloat inp.snap.temp, ofFloat inp.snap.hum, ofFloat_chars _, ofFloat_chars _, ?_, ?_⟩
  · cases hd : danger inp.snap <;>
      simp [loop_body, loop_record, loop_actuate, digitalRead, Telemetry.render, hd, o0, o1, o180]
  · cases hd : danger inp.snap <;> cases hw : inp.wifi <;>
      simp [loop_body, loop_record, loop_actuate, digitalRead, Telemetry.render, sendToSupabase,
        hd, hw, o0, o1, o180]

/-- C7: a cycle returns when it is entered connected, and also when it is entered
disconnected as soon as the first successful connect attempt has been made.  In every
cycle that returns, whatever the actuator state and the remote commands handled at its
top, the record has led = buzzer = 1 on danger and 0 otherwise, servo = 180 on danger
and 0 otherwise, status `All Safe` exactly when there is no danger; the board holds the
same verdict, and the text published last on `sensors/data` and posted carries exactly
these values after the four readings. -/
theorem loop_telemetry_current (fuel : Nat) (inp : CycleInput) (dev : Device) :
    (dev.client.connected = true →
      loop fuel inp dev = some (loop_body inp dev.client dev.board)) ∧
    (dev.client.connected = false → ∀ k, inp.attempt k = true →
      (∀ j, j < k → inp.attempt j = false) → k < fuel →
      loop fuel inp dev
        = some (loop_body inp ⟨true, [sub_led, sub_servo, sub_buzz]⟩ dev.board)) ∧
    (∀ r, loop fuel inp dev = some r →
      r.2.record.led = (if danger inp.snap then 1 else 0) ∧
      r.2.record.buzzer = (if danger inp.snap then 1 else 0) ∧
      r.2.record.servo = (if danger inp.snap then 180 else 0) ∧
      (r.2.record.status = "All Safe".toList ↔ danger inp.snap = false) ∧
      r.2.published.getLast? = some ⟨pub_sensors, r.2.record.render⟩ ∧
      r.1.board = ⟨danger inp.snap, danger inp.snap, if danger inp.snap then 180 else 0,
        if danger inp.snap then 180 else 0⟩ ∧
      ∃ t h : Str, (∀ x ∈ t, x ∈ floatChars) ∧ (∀ x ∈ h, x ∈ floatChars) ∧
        r.2.published.getLast?
          = some ⟨pub_sensors,
              "\x7b\"temp\":".toList ++ t ++ ",\"hum\":".toList ++ h
                ++ ",\"gas\":".toList ++ ofInt inp.snap.gasValue
                ++ ",\"flame\":".toList ++ ofInt inp.snap.flameValue
                ++ (if danger inp.snap then
                      ",\"led\":1,\"buzzer\":1,\"servo\":180,\"status\":\"DANGER - Door Open\"\x7d".toList
                    else
                      ",\"led\":0,\"buzzer\":0,\"servo\":0,\"status\":\"All Safe\"\x7d".toList)⟩ ∧
        r.2.posted
          = if inp.wifi then
              ["\x7b\"temp\":".toList ++ t ++ ",\"hum\":".toList ++ h
                ++ ",\"gas\":".toList ++ ofInt inp.snap.gasValue
                ++ ",\"flame\":".toList ++ ofInt inp.snap.flameValue
                ++ (if danger inp.snap then
                      ",\"led\":1,\"buzzer\":1,\"servo\":180,\"status\":\"DANGER - Door Open\"\x7d".toList
                    else
                      ",\"led\":0,\"buzzer\":0,\"servo\":0,\"status\":\"All Safe\"\x7d".toList)]
            else []) := by
  refine ⟨loop_connected fuel inp dev, ?_, ?_⟩
  · intro hc k hk hfail hfuel
    exact loop_reconnected fuel inp dev hc k hk hfail hfuel
  · intro r hr
    obtain ⟨c, rfl⟩ := loop_some fuel inp dev r hr
    have hrec := loop_body_record inp c dev.board
    refine ⟨by rw [hrec], by rw [hrec], by rw [hrec], ?_, ?_, ?_, loop_body_text inp c dev.board⟩
    · rw [hrec]
      cases danger inp.snap
      · simp
      · simp only [if_true, Bool.true_eq_false, iff_false]
        decide
    · simp [loop_body]
    · simp only [loop_body]
      cases danger inp.snap <;> simp [loop_actuate]

/-- Witness of C7: the remote commands `led ON` and `servo 90` arrive at the top of a
cycle with safe readings, and the record still says led 0, servo 0 and `All Safe`; a
cycle entered disconnected returns after the second connect attempt succeeds. -/
theorem loop_telemetry_current_witness :
    deviceOnline.client.connected = true ∧
    loop 0 cycleSafeAfterCommands deviceOnline
      = some (loop_body cycleSafeAfterCommands deviceOnline.client deviceOnline.board) ∧
    (client_loop cycleSafeAfterCommands.incoming deviceOnline.board).1 = ⟨true, false, 90, 90⟩ ∧
    (loop_body cycleSafeAfterCommands deviceOnline.client deviceOnline.board).2.record.led = 0 ∧
    (loop_body cycleSafeAfterCommands deviceOnline.client deviceOnline.board).2.record.servo = 0 ∧
    (loop_body cycleSafeAfterCommands deviceOnline.client deviceOnline.board).2.record.status
      = "All Safe".toList ∧
    (loop_body cycleSafeAfterCommands deviceOnline.client deviceOnline.board).2.published.getLast?
      = some ⟨pub_sensors,
          ("\x7b\"temp\":25.00,\"hum\":40.00,\"gas\":100,\"flame\":1500,\"led\":0,"
            ++ "\"buzzer\":0,\"servo\":0,\"status\":\"All Safe\"\x7d").toList⟩ ∧
    deviceOffline.client.connected = false ∧
    loop 2 cycleReconnect deviceOffline
      = some (loop_body cycleReconnect ⟨true, [sub_led, sub_servo, sub_buzz]⟩
          deviceOffline.board) := by
  have h := (loop_telemetry_current 0 cycleSafeAfterCommands deviceOnline).2.2
    (loop_body cycleSafeAfterCommands deviceOnline.client deviceOnline.board) (by decide)
  have hd : danger cycleSafeAfterCommands.snap = false := by decide
  rw [hd] at h
  exact ⟨by decide, (loop_telemetry_current 0 cycleSafeAfterCommands deviceOnline).1 (by decide),
    by decide, h.1, h.2.2.1, h.2.2.2.1.mpr rfl, by decide, by decide,
    (loop_telemetry_current 2 cycleReconnect deviceOffline).2.1 (by decide) 1 (by decide)
      (by decide) (by decide)⟩

set_option maxRecDepth 20000 in
/-- C8 as stated fails: with gas = 2500 and the other readings safe the status field is
`DANGER - Door Open`, and neither it nor the published text contains `Gas`. -/
theorem status_without_cause :
    (loop 0 cycleGas deviceOnline).map (fun r => r.2.record.status)
      = some "DANGER - Door Open".toList ∧
    ¬ ("Gas".toList <:+: "DANGER - Door Open".toList) ∧
    (loop 0 cycleGas deviceOnline).map (fun r => r.2.published)
      = some [⟨pub_sensors,
          ("\x7b\"temp\":25.00,\"hum\":40.00,\"gas\":2500,\"flame\":1500,\"led\":1,"
            ++ "\"buzzer\":1,\"servo\":180,\"status\":\"DANGER - Door Open\"\x7d").toList⟩] ∧
    ¬ ("Gas".toList <:+:
        ("\x7b\"temp\":25.00,\"hum\":40.00,\"gas\":2500,\"flame\":1500,\"led\":1,"
          ++ "\"buzzer\":1,\"servo\":180,\"status\":\"DANGER - Door Open\"\x7d").toList) := by
  decide

/-- C8 amended: with gas > 2000, a cycle returns when it is entered connected, and when
it is entered disconnected as soon as the first successful connect attempt has been
made.  In every cycle that returns the status field is the fixed text
`DANGER - Door Open`, which contains neither `All Safe` nor `Gas`, and the text published
last on `sensors/data` and posted ends with led 1, buzzer 1, servo 180 and that status
after the four readings; the cause name is shown on the second display line, whose text
`dangerMsg` starts with `Gas `. -/
theorem status_on_gas (fuel : Nat) (inp : CycleInput) (dev : Device)
    (hgas : inp.snap.gasValue > 2000) :
    (dev.client.connected = true →
      loop fuel inp dev = some (loop_body inp dev.client dev.board)) ∧
    (dev.client.connected = false → ∀ k, inp.attempt k = true →
      (∀ j, j < k → inp.attempt j = false) → k < fuel →
      loop fuel inp dev
        = some (loop_body inp ⟨true, [sub_led, sub_servo, sub_buzz]⟩ dev.board)) ∧
    (∀ r, loop fuel inp dev = some r →
      r.2.record.status = "DANGER - Door Open".toList ∧
      ¬ ("All Safe".toList <:+: r.2.record.status) ∧
      ¬ ("Gas".toList <:+: r.2.record.status) ∧
      r.2.lcd = [LcdOp.clear, LcdOp.setCursor 0 0, LcdOp.print "DANGER! EVACUATE".toList,
        LcdOp.setCursor 0 1, LcdOp.print (dangerMsg inp.snap)] ∧
      "Gas ".toList <+: dangerMsg inp.snap ∧
      ∃ t h : Str, (∀ x ∈ t, x ∈ floatChars) ∧ (∀ x ∈ h, x ∈ floatChars) ∧
        r.2.published.getLast?
          = some ⟨pub_sensors,
              "\x7b\"temp\":".toList ++ t ++ ",\"hum\":".toList ++ h
                ++ ",\"gas\":".toList ++ ofInt inp.snap.gasValue
                ++ ",\"flame\":".toList ++ ofInt inp.snap.flameValue
                ++ ",\"led\":1,\"buzzer\":1,\"servo\":180,\"status\":\"DANGER - Door Open\"\x7d".toList⟩ ∧
        r.2.posted
          = if inp.wifi then
              ["\x7b\"temp\":".toList ++ t ++ ",\"hum\":".toList ++ h
                ++ ",\"gas\":".toList ++ ofInt inp.snap.gasValue
                ++ ",\"flame\":".toList ++ ofInt inp.snap.flameValue
                ++ ",\"led\":1,\"buzzer\":1,\"servo\":180,\"status\":\"DANGER - Door Open\"\x7d".toList]
            else []) := by
  have hg : gasDanger inp.snap = true := by simpa [gasDanger] using hgas
  have hd : danger inp.snap = true := by simp [danger, hg]
  refine ⟨loop_connected fuel inp dev, ?_, ?_⟩
  · intro hc k hk hfail hfuel
    exact loop_reconnected fuel inp dev hc k hk hfail hfuel
  · intro r hr
    obtain ⟨c, rfl⟩ := loop_some fuel inp dev r hr
    have hst : (loop_body inp c dev.board).2.record.status = "DANGER - Door Open".toList := by
      rw [loop_body_record, hd]
      rfl
    rw [hst]
    refine ⟨rfl, by decide, by decide, ?_, ?_, ?_⟩
    · simp [loop_body, loop_display, hd]
    · simp only [dangerMsg, hg, if_true, List.append_assoc]
      exact List.prefix_append _ _
    · obtain ⟨t, h, ht, hh, hpub, hpost⟩ := loop_body_text inp c dev.board
      rw [hd] at hpub hpost
      exact ⟨t, h, ht, hh, hpub, hpost⟩

/-- Witness of C8 amended, at gas = 2500, flame = 1500, temp = 25, hum = 40, entered
connected and entered disconnected. -/
theorem status_on_gas_witness :
    cycleGas.snap.gasValue > 2000 ∧
    loop 0 cycleGas deviceOnline
      = some (loop_body cycleGas deviceOnline.client deviceOnline.board) ∧
    (loop_body cycleGas deviceOnline.client deviceOnline.board).2.record.status
      = "DANGER - Door Open".toList ∧
    dangerMsg cycleGas.snap = "Gas ".toList ∧
    loop 2 cycleGasReconnect deviceOffline
      = some (loop_body cycleGasReconnect ⟨true, [sub_led, sub_servo, sub_buzz]⟩
          deviceOffline.board) :=
  ⟨by decide, (status_on_gas 0 cycleGas deviceOnline (by decide)).1 (by decide),
    ((status_on_gas 0 cycleGas deviceOnline (by decide)).2.2
      (loop_body cycleGas deviceOnline.client deviceOnline.board) (by decide)).1,
    by decide,
    (status_on_gas 2 cycleGasReconnect deviceOffline (by decide)).2.1 (by decide) 1 (by decide)
      (by decide) (by decide)⟩

/-- C9: when the temperature read fails while gas and flame are safe, the verdict is not
danger, but the record carries the NaN as its `temp` value and the published text has
`nan` where a number or `null` is expected. -/
theorem nan_temperature_published :
    danger cycleTempFault.snap = false ∧
    (loop 0 cycleTempFault deviceOnline).map (fun r => r.2.record.temp) = some CFloat.nan ∧
    (loop 0 cycleTempFault deviceOnline).map (fun r => r.2.published)
      = some [⟨pub_sensors,
          ("\x7b\"temp\":nan,\"hum\":40.00,\"gas\":100,\"flame\":1500,\"led\":0,"
            ++ "\"buzzer\":0,\"servo\":0,\"status\":\"All Safe\"\x7d").toList⟩] := by
  decide

end FinalProject


/-! ## The simulation variant: the due pass and a failed DHT read -/

namespace WokwiMain

end WokwiMain

/-! ## The connection routines: what one call does -/

/-- C10 as stated fails: when every connect attempt fails, neither `reconnect` nor
`connectMQTT` returns, however many loop iterations are allowed. -/
theorem connect_never_returns_offline :
    (¬ ∃ fuel, (FinalProject.reconnect (fun _ => false) fuel 0 ⟨false, []⟩).isSome = true) ∧
    (¬ ∃ fuel, (WokwiMain.connectMQTT (fun _ => false) fuel 0 ⟨false, []⟩).isSome = true) := by
  constructor
  · rintro ⟨fuel, h⟩
    rw [reconnect_all_fail _ (fun _ => rfl) fuel 0 _ rfl] at h
    exact absurd h (by decide)
  · rintro ⟨fuel, h⟩
    rw [connectMQTT_all_fail _ (fun _ => rfl) fuel 0 _ rfl] at h
    exact absurd h (by decide)

/-- C10 amended: called while disconnected, the connection routine returns exactly when
some attempt succeeds.  If attempt number `k` is the first success, it returns after
`k + 1` attempts in state connected (`reconnect` subscribed to the three control topics)
as soon as more than `k` loop iterations are allowed, and not earlier; if every attempt
fails it never returns, and the cycle of the hardware variant that called it does not
go on to sensing. -/
theorem connect_returns_on_first_success (attempt : Nat → Bool) (c : Client)
    (hc : c.connected = false) :
    (∀ k, attempt k = true → (∀ j, j < k → attempt j = false) → ∀ fuel,
      FinalProject.reconnect attempt fuel 0 c
        = (if k < fuel then
            some (⟨true, [FinalProject.sub_led, FinalProject.sub_servo, FinalProject.sub_buzz]⟩,
              k + 1)
          else none) ∧
      WokwiMain.connectMQTT attempt fuel 0 c
        = (if k < fuel then some (⟨true, []⟩, k + 1) else none)) ∧
    ((∀ j, attempt j = false) → ∀ fuel,
      FinalProject.reconnect attempt fuel 0 c = none ∧
      WokwiMain.connectMQTT attempt fuel 0 c = none ∧
      ∀ (inp : FinalProject.CycleInput) (b : FinalProject.Board), inp.attempt = attempt →
        FinalProject.loop fuel inp ⟨c, b⟩ = none) := by
  constructor
  · intro k hk hfail fuel
    have h1 := reconnect_first_success attempt k 0 fuel c hc (by simpa using hk)
      (fun j hj => by simpa using hfail j hj)
    have h2 := connectMQTT_first_success attempt k 0 fuel c hc (by simpa using hk)
      (fun j hj => by simpa using hfail j hj)
    simp only [Nat.zero_add] at h1 h2
    exact ⟨h1, h2⟩
  · intro hall fuel
    refine ⟨reconnect_all_fail attempt hall fuel 0 c hc,
      connectMQTT_all_fail attempt hall fuel 0 c hc, ?_⟩
    intro inp b hinp
    subst hinp
    simp [FinalProject.loop, hc, reconnect_all_fail inp.attempt hall fuel 0 c hc]

/-- Witness of C10 amended: with the third attempt the first success, three iterations
are enough and two are not; with no success, a thousand iterations are not enough. -/
theorem connect_returns_on_first_success_witness :
    FinalProject.reconnect (fun j => decide (j = 2)) 3 0 ⟨false, []⟩
      = some (⟨true, [FinalProject.sub_led, FinalProject.sub_servo, FinalProject.sub_buzz]⟩, 3) ∧
    WokwiMain.connectMQTT (fun j => decide (j = 2)) 2 0 ⟨false, []⟩ = none ∧
    FinalProject.reconnect (fun _ => false) 1000 0 ⟨false, []⟩ = none := by
  have h := (connect_returns_on_first_success (fun j => decide (j = 2)) ⟨false, []⟩ rfl).1 2
    (by decide) (by decide)
  have h0 := (connect_returns_on_first_success (fun _ => false) ⟨false, []⟩ rfl).2
    (fun _ => rfl) 1000
  exact ⟨(h 3).1, (h 2).2, h0.1⟩

end KitchenSafety
